import Mathlib

/-!
Server sub-commands of the vultr command-line client.

A shallow embedding of `cmd/commands_servers.go`.  Every handler of that file
declares its flags, calls one method of the API client, terminates through
`log.Fatal` when the call reports an error, and otherwise prints through
`fmt.Println`/`fmt.Printf` and the tabular formatter (`printTabbedLine`,
`tabsFlush`).

A handler is embedded as a computation that records, in program order, every
effect it performs: the client call, text written to standard output, rows
handed to the formatter, the flush and the fatal exit.
-/

namespace Vultr

/-! ## Data model -/

/-- A Go value boxed into `interface{}`, as stored in a `Columns` literal. -/
inductive Value where
  | str (s : String)
  | int (n : Int)
  | bool (b : Bool)
  | float64 (bits : Nat)
  deriving DecidableEq, Repr

/-- The Go `error` interface, a non-nil error carrying its message. -/
structure Error where
  msg : String
  deriving DecidableEq, Repr

/-- Modelled from the spec: the declaration of `vultr.ServerOptions` lives in
the vendored client library; the eight fields are the ones the composite
literal of `serversCreate` names, with the types of the flags assigned to
them. -/
structure ServerOptions where
  IPXEChainURL : String
  ISO : Int
  Script : Int
  Snapshot : String
  SSHKey : String
  IPV6 : Bool
  PrivateNetworking : Bool
  AutoBackups : Bool
  deriving DecidableEq, Repr

/-- Modelled from the spec: the declaration of `vultr.Server` lives in the
vendored client library; the fields are the ones the handlers read.  `ID` is a
string (it is compared with `""`); the other field types are not fixed by the
handlers and are kept as boxed values. -/
structure Server where
  ID : String
  Name : Value
  OS : Value
  Status : Value
  PowerStatus : Value
  Location : Value
  RegionID : Value
  VCpus : Value
  RAM : Value
  Disk : Value
  AllowedBandwidth : Value
  CurrentBandwidth : Value
  Cost : Value
  PendingCharges : Value
  PlanID : Value
  MainIP : Value
  NetmaskV4 : Value
  GatewayV4 : Value
  InternalIP : Value
  MainIPV6 : Value
  NetworkV6 : Value
  NetworkSizeV6 : Value
  Created : Value
  DefaultPassword : Value
  AutoBackups : Value
  KVMUrl : Value
  deriving DecidableEq, Repr

/-- Modelled from the spec: the declaration of `vultr.OS` lives in the vendored
client library; the fields are the ones `serversListOS` reads. -/
structure OS where
  ID : Value
  Name : Value
  Arch : Value
  Family : Value
  Windows : Value
  Surcharge : Value
  deriving DecidableEq, Repr

/-- Modelled from the spec: a bandwidth sample is a Go map from string keys to
string values, kept as its list of bindings. -/
abbrev Sample := List (String × String)

/-- Go map indexing `b[key]`: the bound value, or the zero value `""` when the
key is absent. -/
def Sample.index (b : Sample) (key : String) : String :=
  match b.lookup key with
  | some v => v
  | none => ""

/-- The `Columns` type of the formatter, `[]interface{}`. -/
abbrev Columns := List Value

/-- A method call on the API client, with its arguments. -/
inductive Request where
  | CreateServer (name : String) (regionID planID osID : Int) (options : ServerOptions)
  | RenameServer (id name : String)
  | StartServer (id : String)
  | HaltServer (id : String)
  | RebootServer (id : String)
  | ReinstallServer (id : String)
  | ChangeOSofServer (id : String) (osID : Int)
  | ListOSforServer (id : String)
  | DeleteServer (id : String)
  | BandwidthOfServer (id : String)
  | GetServers
  | GetServer (id : String)
  deriving DecidableEq, Repr

/-- The externally visible effects of a handler. -/
inductive Event where
  | call (req : Request)
  | print (text : String)
  | row (values : Columns) (lengths : List Int)
  | flush
  | fatal (err : Error)
  deriving DecidableEq, Repr

/-- The API client behind `GetClient()`: what each method answers.  A Go result
`(value, err)` is a pair whose second component is `none` for `nil`. -/
structure Client where
  CreateServer : String → Int → Int → Int → ServerOptions → Server × Option Error
  RenameServer : String → String → Option Error
  StartServer : String → Option Error
  HaltServer : String → Option Error
  RebootServer : String → Option Error
  ReinstallServer : String → Option Error
  ChangeOSofServer : String → Int → Option Error
  ListOSforServer : String → List OS × Option Error
  DeleteServer : String → Option Error
  BandwidthOfServer : String → List Sample × Option Error
  GetServers : List Server × Option Error
  GetServer : String → Server × Option Error

/-! ## Effectful computations -/

/-- A computation of the process: the effects performed so far and the value
produced, `none` once the process has exited. -/
structure Proc (α : Type) where
  trace : List Event
  result : Option α

namespace Proc

/-- Sequencing: the second part runs only while the process is alive. -/
def andThen {α β : Type} (m : Proc α) (f : α → Proc β) : Proc β :=
  match m.result with
  | none => ⟨m.trace, none⟩
  | some a => ⟨m.trace ++ (f a).trace, (f a).result⟩

instance : Monad Proc where
  pure a := ⟨[], some a⟩
  bind := andThen

/-- Perform one effect and continue. -/
def emit (e : Event) : Proc Unit := ⟨[e], some ()⟩

end Proc

open Proc

/-- Go `log.Fatal(err)`: report the error and exit with status 1. -/
def logFatal {α : Type} (err : Error) : Proc α := ⟨[Event.fatal err], none⟩

/-- Go `fmt.Println(args)`: the text followed by a newline on standard output. -/
def fmtPrintln (text : String) : Proc Unit := emit (Event.print (text ++ "\n"))

/-- Go `fmt.Printf` with an already formatted text. -/
def fmtPrintf (text : String) : Proc Unit := emit (Event.print text)

/-- Formatter entry point `printTabbedLine(values, lengths)`. -/
def printTabbedLine (values : Columns) (lengths : List Int) : Proc Unit :=
  emit (Event.row values lengths)

/-- Formatter entry point `tabsFlush()`. -/
def tabsFlush : Proc Unit := emit Event.flush

/-- The verb `%v` applied to a Go `int`. -/
def fmtInt (n : Int) : String := toString n

/-- The flags of `servers create`, with the defaults of their declarations. -/
structure CreateFlags where
  name : String := ""
  regionID : Int := 0
  planID : Int := 0
  osID : Int := 0
  ipxe : String := ""
  iso : Int := 0
  script : Int := 0
  snapshot : String := ""
  sshkey : String := ""
  ipv6 : Bool := false
  privateNetworking : Bool := false
  autoBackups : Bool := false
  deriving DecidableEq, Repr

/-! ## Handlers -/

def serversCreate (c : Client) (f : CreateFlags) : Proc Unit := do
  let options : ServerOptions :=
    { IPXEChainURL := f.ipxe
      ISO := f.iso
      Script := f.script
      Snapshot := f.snapshot
      SSHKey := f.sshkey
      IPV6 := f.ipv6
      PrivateNetworking := f.privateNetworking
      AutoBackups := f.autoBackups }
  emit (Event.call (Request.CreateServer f.name f.regionID f.planID f.osID options))
  let (server, err) := c.CreateServer f.name f.regionID f.planID f.osID options
  if let some e := err then
    logFatal e
  fmtPrintln "Virtual machine created\n"
  let lengths : List Int := [12, 32, 8, 12, 8]
  printTabbedLine [.str "SUBID", .str "NAME", .str "DCID", .str "VPSPLANID", .str "OSID"] lengths
  printTabbedLine [.str server.ID, server.Name, server.RegionID, server.PlanID, .int f.osID] lengths
  tabsFlush

def serversRename (c : Client) (id name : String) : Proc Unit := do
  emit (Event.call (Request.RenameServer id name))
  if let some e := c.RenameServer id name then
    logFatal e
  fmtPrintf ("Virtual machine renamed to: " ++ name ++ "\n")

def serversStart (c : Client) (id : String) : Proc Unit := do
  emit (Event.call (Request.StartServer id))
  if let some e := c.StartServer id then
    logFatal e
  fmtPrintln "Virtual machine (re)started"

def serversHalt (c : Client) (id : String) : Proc Unit := do
  emit (Event.call (Request.HaltServer id))
  if let some e := c.HaltServer id then
    logFatal e
  fmtPrintln "Virtual machine halted"

def serversReboot (c : Client) (id : String) : Proc Unit := do
  emit (Event.call (Request.RebootServer id))
  if let some e := c.RebootServer id then
    logFatal e
  fmtPrintln "Virtual machine rebooted"

def serversReinstall (c : Client) (id : String) : Proc Unit := do
  emit (Event.call (Request.ReinstallServer id))
  if let some e := c.ReinstallServer id then
    logFatal e
  fmtPrintln "Virtual machine reinstalled"

def serversChangeOS (c : Client) (id : String) (osID : Int) : Proc Unit := do
  emit (Event.call (Request.ChangeOSofServer id osID))
  if let some e := c.ChangeOSofServer id osID then
    logFatal e
  fmtPrintf ("Virtual machine operating system changed to: " ++ fmtInt osID ++ "\n")

def serversListOS (c : Client) (id : String) : Proc Unit := do
  emit (Event.call (Request.ListOSforServer id))
  let (os, err) := c.ListOSforServer id
  if let some e := err then
    logFatal e
  if os.length == 0 then
    fmtPrintln ""
    return
  let lengths : List Int := [8, 32, 8, 16, 8, 12]
  printTabbedLine
    [.str "OSID", .str "NAME", .str "ARCH", .str "FAMILY", .str "WINDOWS", .str "SURCHARGE"] lengths
  for os in os do
    printTabbedLine [os.ID, os.Name, os.Arch, os.Family, os.Windows, os.Surcharge] lengths
  tabsFlush

def serversDelete (c : Client) (id : String) : Proc Unit := do
  emit (Event.call (Request.DeleteServer id))
  if let some e := c.DeleteServer id then
    logFatal e
  fmtPrintln "Virtual machine deleted"

def serversBandwidth (c : Client) (id : String) : Proc Unit := do
  emit (Event.call (Request.BandwidthOfServer id))
  let (bandwidth, err) := c.BandwidthOfServer id
  if let some e := err then
    logFatal e
  if bandwidth.length == 0 then
    fmtPrintln ""
    return
  let lengths : List Int := [24, 24, 24]
  printTabbedLine [.str "DATE", .str "INCOMING", .str "OUTGOING"] lengths
  for b in bandwidth do
    printTabbedLine [.str (b.index "date"), .str (b.index "incoming"), .str (b.index "outgoing")]
      lengths
  tabsFlush

def serversList (c : Client) : Proc Unit := do
  emit (Event.call Request.GetServers)
  let (servers, err) := c.GetServers
  if let some e := err then
    logFatal e
  if servers.length == 0 then
    fmtPrintln ""
    return
  let lengths : List Int := [12, 16, 24, 32, 32, 32, 8, 8, 24, 12, 8]
  printTabbedLine
    [ .str "SUBID",
      .str "STATUS",
      .str "IP",
      .str "NAME",
      .str "OS",
      .str "LOCATION",
      .str "VCPU",
      .str "RAM",
      .str "DISK",
      .str "BANDWIDTH",
      .str "COST" ] lengths
  for server in servers do
    printTabbedLine
      [ .str server.ID,
        server.Status,
        server.MainIP,
        server.Name,
        server.OS,
        server.Location,
        server.VCpus,
        server.RAM,
        server.Disk,
        server.AllowedBandwidth,
        server.Cost ] lengths
  tabsFlush

def serversShow (c : Client) (id : String) (full : Bool) : Proc Unit := do
  emit (Event.call (Request.GetServer id))
  let (server, err) := c.GetServer id
  if let some e := err then
    logFatal e
  if server.ID == "" then
    fmtPrintf ("No virtual machine with SUBID " ++ id ++ " found!\n")
    return
  let mut keyLength : Int := 64
  if full then
    keyLength := 1024
  let lengths : List Int := [24, keyLength]
  printTabbedLine [.str "Id (SUBID):", .str server.ID] lengths
  printTabbedLine [.str "Name:", server.Name] lengths
  printTabbedLine [.str "Operating system:", server.OS] lengths
  printTabbedLine [.str "Status:", server.Status] lengths
  printTabbedLine [.str "Power status:", server.PowerStatus] lengths
  printTabbedLine [.str "Location:", server.Location] lengths
  printTabbedLine [.str "Region (DCID):", server.RegionID] lengths
  printTabbedLine [.str "VCPU count:", server.VCpus] lengths
  printTabbedLine [.str "RAM:", server.RAM] lengths
  printTabbedLine [.str "Disk:", server.Disk] lengths
  printTabbedLine [.str "Allowed bandwidth:", server.AllowedBandwidth] lengths
  printTabbedLine [.str "Current bandwidth:", server.CurrentBandwidth] lengths
  printTabbedLine [.str "Cost per month:", server.Cost] lengths
  printTabbedLine [.str "Pending charges:", server.PendingCharges] lengths
  printTabbedLine [.str "Plan (VPSPLANID):", server.PlanID] lengths
  printTabbedLine [.str "IP:", server.MainIP] lengths
  printTabbedLine [.str "Netmask:", server.NetmaskV4] lengths
  printTabbedLine [.str "Gateway:", server.GatewayV4] lengths
  printTabbedLine [.str "Internal IP:", server.InternalIP] lengths
  printTabbedLine [.str "IPv6 IP:", server.MainIPV6] lengths
  printTabbedLine [.str "IPv6 Network:", server.NetworkV6] lengths
  printTabbedLine [.str "IPv6 Network Size:", server.NetworkSizeV6] lengths
  printTabbedLine [.str "Created date:", server.Created] lengths
  printTabbedLine [.str "Default password:", server.DefaultPassword] lengths
  printTabbedLine [.str "Auto backups:", server.AutoBackups] lengths
  printTabbedLine [.str "KVM URL:", server.KVMUrl] lengths
  tabsFlush

/-! ## Observations on a trace -/

/-- The client calls of a trace, in order. -/
def calls (t : List Event) : List Request :=
  t.filterMap fun e =>
    match e with
    | Event.call req => some req
    | _ => none

/-- What the process emitted (everything but the client calls), in order. -/
def output (t : List Event) : List Event :=
  t.filter fun e =>
    match e with
    | Event.call _ => false
    | _ => true

/-- The formatter's precondition on one event: a row carries as many values as
width hints. -/
def Event.widthsMatch (e : Event) : Bool :=
  match e with
  | Event.row values lengths => values.length == lengths.length
  | _ => true

/-! ## Fixtures -/

/-- A server record whose fields are all given. -/
def sampleServer (id name : String) : Server :=
  { ID := id, Name := .str name, OS := .str "Debian", Status := .str "active",
    PowerStatus := .str "running", Location := .str "Frankfurt", RegionID := .int 9,
    VCpus := .int 1, RAM := .str "768 MB", Disk := .str "Virtual 15 GB",
    AllowedBandwidth := .int 1000, CurrentBandwidth := .int 0, Cost := .str "5.00",
    PendingCharges := .int 0, PlanID := .int 29, MainIP := .str "10.0.0.1",
    NetmaskV4 := .str "255.255.255.0", GatewayV4 := .str "10.0.0.254",
    InternalIP := .str "", MainIPV6 := .str "", NetworkV6 := .str "",
    NetworkSizeV6 := .str "", Created := .str "2015-01-01", DefaultPassword := .str "pw",
    AutoBackups := .str "no", KVMUrl := .str "https://my.vultr.com/kvm" }

/-- An operating-system record. -/
def sampleOS (n : Int) : OS :=
  { ID := .int n, Name := .str "Debian", Arch := .str "x64", Family := .str "debian",
    Windows := .bool false, Surcharge := .int 0 }

/-- A bandwidth sample with the three reported keys. -/
def sampleBandwidth (date : String) : Sample :=
  [("date", date), ("incoming", "10"), ("outgoing", "20")]

/-- A client every call of which succeeds: it creates server `"7"` with the name,
region and plan asked for, lists `oss`, `samples` and `servers`, and finds
`found`. -/
def okClient (oss : List OS) (samples : List Sample) (servers : List Server) (found : Server) :
    Client :=
  { CreateServer := fun name regionID planID _ _ =>
      ({ sampleServer "7" name with RegionID := .int regionID, PlanID := .int planID }, none)
    RenameServer := fun _ _ => none
    StartServer := fun _ => none
    HaltServer := fun _ => none
    RebootServer := fun _ => none
    ReinstallServer := fun _ => none
    ChangeOSofServer := fun _ _ => none
    ListOSforServer := fun _ => (oss, none)
    DeleteServer := fun _ => none
    BandwidthOfServer := fun _ => (samples, none)
    GetServers := (servers, none)
    GetServer := fun _ => (found, none) }

/-- A client whose `CreateServer` answers with the record of server `"7"` as the
service stores it (name `"other"`, region 9, plan 29), whatever was asked for. -/
def relabellingClient : Client :=
  { okClient [] [] [] (sampleServer "7" "other") with
    CreateServer := fun _ _ _ _ _ => (sampleServer "7" "other", none) }

/-- A server name of 70 characters. -/
def longName : String :=
  "web-frontend-production-eu-central-1-cluster-a-node-0001.example.org.."

/-- A client every call of which fails with `err`. -/
def failingClient (err : Error) : Client :=
  { CreateServer := fun _ _ _ _ _ => (sampleServer "" "", some err)
    RenameServer := fun _ _ => some err
    StartServer := fun _ => some err
    HaltServer := fun _ => some err
    RebootServer := fun _ => some err
    ReinstallServer := fun _ => some err
    ChangeOSofServer := fun _ _ => some err
    ListOSforServer := fun _ => ([], some err)
    DeleteServer := fun _ => some err
    BandwidthOfServer := fun _ => ([], some err)
    GetServers := ([], some err)
    GetServer := fun _ => (sampleServer "" "", some err) }

/-! ## Auxiliary lemmas: what each handler computes -/

theorem forIn_rows {α : Type} (xs : List α) (g : α → Columns) (lengths : List Int) :
    (forIn xs PUnit.unit (fun x _ => do
        printTabbedLine (g x) lengths
        pure (ForInStep.yield PUnit.unit)) : Proc PUnit)
      = ⟨xs.map (fun x => Event.row (g x) lengths), some PUnit.unit⟩ := by
  induction xs with
  | nil => rfl
  | cons x xs ih =>
    rw [List.forIn_cons]
    simp only [ih]
    rfl

/-- Position `i + 2` of a list framed by two leading elements and a trailing one. -/
theorem getElem?_framed {α β : Type} (a b z : β) (f : α → β) (xs : List α) (i : Nat) (x : α)
    (h : xs[i]? = some x) : (a :: b :: xs.map f ++ [z])[i + 2]? = some (f x) := by
  have hlt : i < xs.length := (List.getElem?_eq_some.mp h).1
  rw [List.cons_append, List.cons_append, List.getElem?_cons_succ, List.getElem?_cons_succ,
    List.getElem?_append_left (by simpa using hlt), List.getElem?_map, h]
  rfl

theorem serversCreate_eq (c : Client) (f : CreateFlags) :
    serversCreate c f =
      match c.CreateServer f.name f.regionID f.planID f.osID
          ⟨f.ipxe, f.iso, f.script, f.snapshot, f.sshkey, f.ipv6, f.privateNetworking,
            f.autoBackups⟩ with
      | (_, some e) =>
        ⟨[Event.call (Request.CreateServer f.name f.regionID f.planID f.osID
            ⟨f.ipxe, f.iso, f.script, f.snapshot, f.sshkey, f.ipv6, f.privateNetworking,
              f.autoBackups⟩), Event.fatal e], none⟩
      | (server, none) =>
        ⟨[Event.call (Request.CreateServer f.name f.regionID f.planID f.osID
            ⟨f.ipxe, f.iso, f.script, f.snapshot, f.sshkey, f.ipv6, f.privateNetworking,
              f.autoBackups⟩),
          Event.print "Virtual machine created\n\n",
          Event.row [.str "SUBID", .str "NAME", .str "DCID", .str "VPSPLANID", .str "OSID"]
            [12, 32, 8, 12, 8],
          Event.row [.str server.ID, server.Name, server.RegionID, server.PlanID, .int f.osID]
            [12, 32, 8, 12, 8],
          Event.flush], some ()⟩ := by
  split
  · next h =>
    unfold serversCreate
    simp only [h]
    rfl
  · next h =>
    unfold serversCreate
    simp only [h]
    rfl

theorem serversListOS_eq (c : Client) (id : String) :
    serversListOS c id =
      match c.ListOSforServer id with
      | (_, some e) => ⟨[Event.call (Request.ListOSforServer id), Event.fatal e], none⟩
      | (xs, none) =>
        match xs with
        | [] => ⟨[Event.call (Request.ListOSforServer id), Event.print "\n"], some ()⟩
        | o :: os =>
            ⟨Event.call (Request.ListOSforServer id) ::
              Event.row
                [.str "OSID", .str "NAME", .str "ARCH", .str "FAMILY", .str "WINDOWS",
                  .str "SURCHARGE"] [8, 32, 8, 16, 8, 12] ::
              (o :: os).map (fun os =>
                Event.row [os.ID, os.Name, os.Arch, os.Family, os.Windows, os.Surcharge]
                  [8, 32, 8, 16, 8, 12]) ++ [Event.flush], some ()⟩ := by
  unfold serversListOS
  rcases c.ListOSforServer id with ⟨os, _ | e⟩
  · cases os with
    | nil => rfl
    | cons o os =>
      simp only [forIn_rows]
      rfl
  · simp only []
    rfl

theorem serversBandwidth_eq (c : Client) (id : String) :
    serversBandwidth c id =
      match c.BandwidthOfServer id with
      | (_, some e) => ⟨[Event.call (Request.BandwidthOfServer id), Event.fatal e], none⟩
      | (xs, none) =>
        match xs with
        | [] => ⟨[Event.call (Request.BandwidthOfServer id), Event.print "\n"], some ()⟩
        | b :: bs =>
            ⟨Event.call (Request.BandwidthOfServer id) ::
              Event.row [.str "DATE", .str "INCOMING", .str "OUTGOING"] [24, 24, 24] ::
              (b :: bs).map (fun b =>
                Event.row
                  [.str (b.index "date"), .str (b.index "incoming"), .str (b.index "outgoing")]
                  [24, 24, 24]) ++ [Event.flush], some ()⟩ := by
  unfold serversBandwidth
  rcases c.BandwidthOfServer id with ⟨bs, _ | e⟩
  · cases bs with
    | nil => rfl
    | cons b bs =>
      simp only [forIn_rows]
      rfl
  · simp only []
    rfl

theorem serversList_eq (c : Client) :
    serversList c =
      match c.GetServers with
      | (_, some e) => ⟨[Event.call Request.GetServers, Event.fatal e], none⟩
      | (xs, none) =>
        match xs with
        | [] => ⟨[Event.call Request.GetServers, Event.print "\n"], some ()⟩
        | s :: ss =>
            ⟨Event.call Request.GetServers ::
              Event.row
                [.str "SUBID", .str "STATUS", .str "IP", .str "NAME", .str "OS", .str "LOCATION",
                  .str "VCPU", .str "RAM", .str "DISK", .str "BANDWIDTH", .str "COST"]
                [12, 16, 24, 32, 32, 32, 8, 8, 24, 12, 8] ::
              (s :: ss).map (fun server =>
                Event.row
                  [.str server.ID, server.Status, server.MainIP, server.Name, server.OS,
                    server.Location, server.VCpus, server.RAM, server.Disk,
                    server.AllowedBandwidth, server.Cost]
                  [12, 16, 24, 32, 32, 32, 8, 8, 24, 12, 8]) ++ [Event.flush], some ()⟩ := by
  unfold serversList
  rcases c.GetServers with ⟨ss, _ | e⟩
  · cases ss with
    | nil => rfl
    | cons s ss =>
      simp only [forIn_rows]
      rfl
  · simp only []
    rfl

theorem serversRename_eq (c : Client) (id name : String) :
    serversRename c id name =
      match c.RenameServer id name with
      | some e => ⟨[Event.call (Request.RenameServer id name), Event.fatal e], none⟩
      | none => ⟨[Event.call (Request.RenameServer id name), Event.print ("Virtual machine renamed to: " ++ name ++ "\n")], some ()⟩ := by
  unfold serversRename
  rcases c.RenameServer id name with _ | e
  · rfl
  · rfl

theorem serversStart_eq (c : Client) (id : String) :
    serversStart c id =
      match c.StartServer id with
      | some e => ⟨[Event.call (Request.StartServer id), Event.fatal e], none⟩
      | none => ⟨[Event.call (Request.StartServer id), Event.print "Virtual machine (re)started\n"], some ()⟩ := by
  unfold serversStart
  rcases c.StartServer id with _ | e
  · rfl
  · rfl

theorem serversHalt_eq (c : Client) (id : String) :
    serversHalt c id =
      match c.HaltServer id with
      | some e => ⟨[Event.call (Request.HaltServer id), Event.fatal e], none⟩
      | none => ⟨[Event.call (Request.HaltServer id), Event.print "Virtual machine halted\n"], some ()⟩ := by
  unfold serversHalt
  rcases c.HaltServer id with _ | e
  · rfl
  · rfl

theorem serversReboot_eq (c : Client) (id : String) :
    serversReboot c id =
      match c.RebootServer id with
      | some e => ⟨[Event.call (Request.RebootServer id), Event.fatal e], none⟩
      | none => ⟨[Event.call (Request.RebootServer id), Event.print "Virtual machine rebooted\n"], some ()⟩ := by
  unfold serversReboot
  rcases c.RebootServer id with _ | e
  · rfl
  · rfl

theorem serversReinstall_eq (c : Client) (id : String) :
    serversReinstall c id =
      match c.ReinstallServer id with
      | some e => ⟨[Event.call (Request.ReinstallServer id), Event.fatal e], none⟩
      | none => ⟨[Event.call (Request.ReinstallServer id), Event.print "Virtual machine reinstalled\n"], some ()⟩ := by
  unfold serversReinstall
  rcases c.ReinstallServer id with _ | e
  · rfl
  · rfl

theorem serversChangeOS_eq (c : Client) (id : String) (osID : Int) :
    serversChangeOS c id osID =
      match c.ChangeOSofServer id osID with
      | some e => ⟨[Event.call (Request.ChangeOSofServer id osID), Event.fatal e], none⟩
      | none => ⟨[Event.call (Request.ChangeOSofServer id osID), Event.print ("Virtual machine operating system changed to: " ++ fmtInt osID ++ "\n")], some ()⟩ := by
  unfold serversChangeOS
  rcases c.ChangeOSofServer id osID with _ | e
  · rfl
  · rfl

theorem serversDelete_eq (c : Client) (id : String) :
    serversDelete c id =
      match c.DeleteServer id with
      | some e => ⟨[Event.call (Request.DeleteServer id), Event.fatal e], none⟩
      | none => ⟨[Event.call (Request.DeleteServer id), Event.print "Virtual machine deleted\n"], some ()⟩ := by
  unfold serversDelete
  rcases c.DeleteServer id with _ | e
  · rfl
  · rfl

theorem serversShow_eq (c : Client) (id : String) (full : Bool) :
    serversShow c id full =
      match c.GetServer id with
      | (_, some e) => ⟨[Event.call (Request.GetServer id), Event.fatal e], none⟩
      | (server, none) =>
        if server.ID = "" then
          ⟨[Event.call (Request.GetServer id),
            Event.print ("No virtual machine with SUBID " ++ id ++ " found!\n")], some ()⟩
        else
          ⟨Event.call (Request.GetServer id) ::
            ([ [.str "Id (SUBID):", .str server.ID],
              [.str "Name:", server.Name],
              [.str "Operating system:", server.OS],
              [.str "Status:", server.Status],
              [.str "Power status:", server.PowerStatus],
              [.str "Location:", server.Location],
              [.str "Region (DCID):", server.RegionID],
              [.str "VCPU count:", server.VCpus],
              [.str "RAM:", server.RAM],
              [.str "Disk:", server.Disk],
              [.str "Allowed bandwidth:", server.AllowedBandwidth],
              [.str "Current bandwidth:", server.CurrentBandwidth],
              [.str "Cost per month:", server.Cost],
              [.str "Pending charges:", server.PendingCharges],
              [.str "Plan (VPSPLANID):", server.PlanID],
              [.str "IP:", server.MainIP],
              [.str "Netmask:", server.NetmaskV4],
              [.str "Gateway:", server.GatewayV4],
              [.str "Internal IP:", server.InternalIP],
              [.str "IPv6 IP:", server.MainIPV6],
              [.str "IPv6 Network:", server.NetworkV6],
              [.str "IPv6 Network Size:", server.NetworkSizeV6],
              [.str "Created date:", server.Created],
              [.str "Default password:", server.DefaultPassword],
              [.str "Auto backups:", server.AutoBackups],
              [.str "KVM URL:", server.KVMUrl] ] : List Columns).map
              (fun r => Event.row r [24, if full then 1024 else 64]) ++ [Event.flush], some ()⟩ := by
  unfold serversShow
  rcases c.GetServer id with ⟨server, _ | e⟩
  · by_cases hid : server.ID = ""
    · simp only [hid]
      rfl
    · have hne : (server.ID == "") = false := by simpa using hid
      cases full
      · simp only [hne, hid]
        rfl
      · simp only [hne, hid]
        rfl
  · simp only []
    rfl

/-! ## Collaborator errors -/

/-- C1: in each of the twelve handlers, when the client call returns an error the
handler performs the call, exits through `log.Fatal` with that error, and emits
nothing else: no confirmation sentence, no blank line, no formatter row and no
flush. -/
theorem collaborator_error_is_fatal_without_output (c : Client) (e : Error) :
    (∀ (f : CreateFlags) (server : Server),
      c.CreateServer f.name f.regionID f.planID f.osID
          ⟨f.ipxe, f.iso, f.script, f.snapshot, f.sshkey, f.ipv6, f.privateNetworking, f.autoBackups⟩ = (server, some e) →
        serversCreate c f =
          ⟨[Event.call (Request.CreateServer f.name f.regionID f.planID f.osID
              ⟨f.ipxe, f.iso, f.script, f.snapshot, f.sshkey, f.ipv6, f.privateNetworking, f.autoBackups⟩), Event.fatal e], none⟩) ∧
    (∀ id name, c.RenameServer id name = some e →
      serversRename c id name = ⟨[Event.call (Request.RenameServer id name), Event.fatal e], none⟩) ∧
    (∀ id, c.StartServer id = some e →
      serversStart c id = ⟨[Event.call (Request.StartServer id), Event.fatal e], none⟩) ∧
    (∀ id, c.HaltServer id = some e →
      serversHalt c id = ⟨[Event.call (Request.HaltServer id), Event.fatal e], none⟩) ∧
    (∀ id, c.RebootServer id = some e →
      serversReboot c id = ⟨[Event.call (Request.RebootServer id), Event.fatal e], none⟩) ∧
    (∀ id, c.ReinstallServer id = some e →
      serversReinstall c id = ⟨[Event.call (Request.ReinstallServer id), Event.fatal e], none⟩) ∧
    (∀ id osID, c.ChangeOSofServer id osID = some e →
      serversChangeOS c id osID = ⟨[Event.call (Request.ChangeOSofServer id osID), Event.fatal e], none⟩) ∧
    (∀ id os, c.ListOSforServer id = (os, some e) →
      serversListOS c id = ⟨[Event.call (Request.ListOSforServer id), Event.fatal e], none⟩) ∧
    (∀ id, c.DeleteServer id = some e →
      serversDelete c id = ⟨[Event.call (Request.DeleteServer id), Event.fatal e], none⟩) ∧
    (∀ id bandwidth, c.BandwidthOfServer id = (bandwidth, some e) →
      serversBandwidth c id = ⟨[Event.call (Request.BandwidthOfServer id), Event.fatal e], none⟩) ∧
    (∀ servers, c.GetServers = (servers, some e) →
      serversList c = ⟨[Event.call (Request.GetServers), Event.fatal e], none⟩) ∧
    (∀ id full server, c.GetServer id = (server, some e) →
      serversShow c id full = ⟨[Event.call (Request.GetServer id), Event.fatal e], none⟩) := by
  refine ⟨?_, ?_, ?_, ?_, ?_, ?_, ?_, ?_, ?_, ?_, ?_, ?_⟩
  · intro f server h
    rw [serversCreate_eq, h]
  · intro id name h
    rw [serversRename_eq, h]
  · intro id h
    rw [serversStart_eq, h]
  · intro id h
    rw [serversHalt_eq, h]
  · intro id h
    rw [serversReboot_eq, h]
  · intro id h
    rw [serversReinstall_eq, h]
  · intro id osID h
    rw [serversChangeOS_eq, h]
  · intro id os h
    rw [serversListOS_eq, h]
  · intro id h
    rw [serversDelete_eq, h]
  · intro id bandwidth h
    rw [serversBandwidth_eq, h]
  · intro servers h
    rw [serversList_eq, h]
  · intro id full server h
    rw [serversShow_eq, h]

/-- C1, at a client that fails every call with the error "boom". -/
theorem collaborator_error_is_fatal_without_output_witness :
    serversCreate (failingClient ⟨"boom"⟩) { name := "web", regionID := 1, planID := 2, osID := 3 } =
        ⟨[Event.call (Request.CreateServer "web" 1 2 3 ⟨"", 0, 0, "", "", false, false, false⟩),
          Event.fatal ⟨"boom"⟩], none⟩ ∧
      serversRename (failingClient ⟨"boom"⟩) "1" "db" =
        ⟨[Event.call (Request.RenameServer "1" "db"), Event.fatal ⟨"boom"⟩], none⟩ ∧
      serversStart (failingClient ⟨"boom"⟩) "1" =
        ⟨[Event.call (Request.StartServer "1"), Event.fatal ⟨"boom"⟩], none⟩ ∧
      serversHalt (failingClient ⟨"boom"⟩) "1" =
        ⟨[Event.call (Request.HaltServer "1"), Event.fatal ⟨"boom"⟩], none⟩ ∧
      serversReboot (failingClient ⟨"boom"⟩) "1" =
        ⟨[Event.call (Request.RebootServer "1"), Event.fatal ⟨"boom"⟩], none⟩ ∧
      serversReinstall (failingClient ⟨"boom"⟩) "1" =
        ⟨[Event.call (Request.ReinstallServer "1"), Event.fatal ⟨"boom"⟩], none⟩ ∧
      serversChangeOS (failingClient ⟨"boom"⟩) "1" 127 =
        ⟨[Event.call (Request.ChangeOSofServer "1" 127), Event.fatal ⟨"boom"⟩], none⟩ ∧
      serversListOS (failingClient ⟨"boom"⟩) "1" =
        ⟨[Event.call (Request.ListOSforServer "1"), Event.fatal ⟨"boom"⟩], none⟩ ∧
      serversDelete (failingClient ⟨"boom"⟩) "1" =
        ⟨[Event.call (Request.DeleteServer "1"), Event.fatal ⟨"boom"⟩], none⟩ ∧
      serversBandwidth (failingClient ⟨"boom"⟩) "1" =
        ⟨[Event.call (Request.BandwidthOfServer "1"), Event.fatal ⟨"boom"⟩], none⟩ ∧
      serversList (failingClient ⟨"boom"⟩) =
        ⟨[Event.call Request.GetServers, Event.fatal ⟨"boom"⟩], none⟩ ∧
      serversShow (failingClient ⟨"boom"⟩) "1" true =
        ⟨[Event.call (Request.GetServer "1"), Event.fatal ⟨"boom"⟩], none⟩ :=
  have h := collaborator_error_is_fatal_without_output (failingClient ⟨"boom"⟩) ⟨"boom"⟩
  ⟨h.1 { name := "web", regionID := 1, planID := 2, osID := 3 } (sampleServer "" "") rfl,
    h.2.1 "1" "db" rfl,
    h.2.2.1 "1" rfl,
    h.2.2.2.1 "1" rfl,
    h.2.2.2.2.1 "1" rfl,
    h.2.2.2.2.2.1 "1" rfl,
    h.2.2.2.2.2.2.1 "1" 127 rfl,
    h.2.2.2.2.2.2.2.1 "1" [] rfl,
    h.2.2.2.2.2.2.2.2.1 "1" rfl,
    h.2.2.2.2.2.2.2.2.2.1 "1" [] rfl,
    h.2.2.2.2.2.2.2.2.2.2.1 [] rfl,
    h.2.2.2.2.2.2.2.2.2.2.2 "1" true (sampleServer "" "") rfl⟩

/-! ## List-style handlers -/

/-- C2: when the client succeeds with an empty sequence, each list-style handler
(list-OS, bandwidth, list) performs its call and prints one blank line; no row
reaches the formatter and the formatter is not flushed. -/
theorem empty_list_prints_one_blank_line (c : Client) :
    (∀ id, c.ListOSforServer id = ([], none) →
      serversListOS c id =
        ⟨[Event.call (Request.ListOSforServer id), Event.print "\n"], some ()⟩) ∧
    (∀ id, c.BandwidthOfServer id = ([], none) →
      serversBandwidth c id =
        ⟨[Event.call (Request.BandwidthOfServer id), Event.print "\n"], some ()⟩) ∧
    (c.GetServers = ([], none) →
      serversList c = ⟨[Event.call Request.GetServers, Event.print "\n"], some ()⟩) := by
  refine ⟨?_, ?_, ?_⟩
  · intro id h
    rw [serversListOS_eq, h]
  · intro id h
    rw [serversBandwidth_eq, h]
  · intro h
    rw [serversList_eq, h]

/-- C2, at a client that answers every listing with the empty sequence. -/
theorem empty_list_prints_one_blank_line_witness :
    serversListOS (okClient [] [] [] (sampleServer "1" "web")) "1" =
        ⟨[Event.call (Request.ListOSforServer "1"), Event.print "\n"], some ()⟩ ∧
      serversBandwidth (okClient [] [] [] (sampleServer "1" "web")) "1" =
        ⟨[Event.call (Request.BandwidthOfServer "1"), Event.print "\n"], some ()⟩ ∧
      serversList (okClient [] [] [] (sampleServer "1" "web")) =
        ⟨[Event.call Request.GetServers, Event.print "\n"], some ()⟩ :=
  have h := empty_list_prints_one_blank_line (okClient [] [] [] (sampleServer "1" "web"))
  ⟨h.1 "1" rfl, h.2.1 "1" rfl, h.2.2 rfl⟩

/-- C3: when the client succeeds with `N ≥ 1` records, each list-style handler
hands the formatter one header row, then exactly `N` data rows, then flushes;
the header has 6 (list-OS), 3 (bandwidth), 11 (list) columns and every data row
has as many. -/
theorem nonempty_list_prints_header_and_one_row_per_record (c : Client) :
    (∀ id (os : List OS), 1 ≤ os.length → c.ListOSforServer id = (os, none) →
      ∃ data : List Columns,
        data.length = os.length ∧ (∀ r ∈ data, r.length = 6) ∧
        (serversListOS c id).trace =
          Event.call (Request.ListOSforServer id) ::
            Event.row [.str "OSID", .str "NAME", .str "ARCH", .str "FAMILY", .str "WINDOWS", .str "SURCHARGE"]
              [8, 32, 8, 16, 8, 12] ::
            data.map (fun r => Event.row r [8, 32, 8, 16, 8, 12]) ++ [Event.flush]) ∧
    (∀ id (bandwidth : List Sample), 1 ≤ bandwidth.length →
      c.BandwidthOfServer id = (bandwidth, none) →
      ∃ data : List Columns,
        data.length = bandwidth.length ∧ (∀ r ∈ data, r.length = 3) ∧
        (serversBandwidth c id).trace =
          Event.call (Request.BandwidthOfServer id) ::
            Event.row [.str "DATE", .str "INCOMING", .str "OUTGOING"] [24, 24, 24] ::
            data.map (fun r => Event.row r [24, 24, 24]) ++ [Event.flush]) ∧
    (∀ (servers : List Server), 1 ≤ servers.length → c.GetServers = (servers, none) →
      ∃ data : List Columns,
        data.length = servers.length ∧ (∀ r ∈ data, r.length = 11) ∧
        (serversList c).trace =
          Event.call Request.GetServers ::
            Event.row
              [.str "SUBID", .str "STATUS", .str "IP", .str "NAME", .str "OS", .str "LOCATION",
              .str "VCPU", .str "RAM", .str "DISK", .str "BANDWIDTH", .str "COST"]
              [12, 16, 24, 32, 32, 32, 8, 8, 24, 12, 8] ::
            data.map (fun r => Event.row r [12, 16, 24, 32, 32, 32, 8, 8, 24, 12, 8]) ++
              [Event.flush]) := by
  refine ⟨?_, ?_, ?_⟩
  · intro id os hN h
    rw [serversListOS_eq, h]
    cases os with
    | nil => simp at hN
    | cons o os =>
      refine ⟨(o :: os).map
        (fun os => [os.ID, os.Name, os.Arch, os.Family, os.Windows, os.Surcharge]), ?_, ?_, ?_⟩
      · simp
      · intro r hr
        obtain ⟨x, -, rfl⟩ := List.mem_map.mp hr
        rfl
      · simp
  · intro id bandwidth hN h
    rw [serversBandwidth_eq, h]
    cases bandwidth with
    | nil => simp at hN
    | cons b bs =>
      refine ⟨(b :: bs).map
        (fun b => [.str (b.index "date"), .str (b.index "incoming"), .str (b.index "outgoing")]),
        ?_, ?_, ?_⟩
      · simp
      · intro r hr
        obtain ⟨x, -, rfl⟩ := List.mem_map.mp hr
        rfl
      · simp
  · intro servers hN h
    rw [serversList_eq, h]
    cases servers with
    | nil => simp at hN
    | cons s ss =>
      refine ⟨(s :: ss).map
        (fun server => [.str server.ID, server.Status, server.MainIP, server.Name, server.OS,
          server.Location, server.VCpus, server.RAM, server.Disk, server.AllowedBandwidth,
          server.Cost]), ?_, ?_, ?_⟩
      · simp
      · intro r hr
        obtain ⟨x, -, rfl⟩ := List.mem_map.mp hr
        rfl
      · simp

/-- C3, at a client listing two operating systems, one bandwidth sample and two
servers. -/
theorem nonempty_list_prints_header_and_one_row_per_record_witness :
    (∃ data : List Columns,
        data.length = 2 ∧ (∀ r ∈ data, r.length = 6) ∧
        (serversListOS (okClient [sampleOS 127, sampleOS 139] [sampleBandwidth "2014-06-10"]
            [sampleServer "1" "web", sampleServer "2" "db"] (sampleServer "1" "web")) "1").trace =
          Event.call (Request.ListOSforServer "1") ::
            Event.row [.str "OSID", .str "NAME", .str "ARCH", .str "FAMILY", .str "WINDOWS", .str "SURCHARGE"]
              [8, 32, 8, 16, 8, 12] ::
            data.map (fun r => Event.row r [8, 32, 8, 16, 8, 12]) ++ [Event.flush]) ∧
      (∃ data : List Columns,
        data.length = 1 ∧ (∀ r ∈ data, r.length = 3) ∧
        (serversBandwidth (okClient [sampleOS 127, sampleOS 139] [sampleBandwidth "2014-06-10"]
            [sampleServer "1" "web", sampleServer "2" "db"] (sampleServer "1" "web")) "1").trace =
          Event.call (Request.BandwidthOfServer "1") ::
            Event.row [.str "DATE", .str "INCOMING", .str "OUTGOING"] [24, 24, 24] ::
            data.map (fun r => Event.row r [24, 24, 24]) ++ [Event.flush]) ∧
      (∃ data : List Columns,
        data.length = 2 ∧ (∀ r ∈ data, r.length = 11) ∧
        (serversList (okClient [sampleOS 127, sampleOS 139] [sampleBandwidth "2014-06-10"]
            [sampleServer "1" "web", sampleServer "2" "db"] (sampleServer "1" "web"))).trace =
          Event.call Request.GetServers ::
            Event.row
              [.str "SUBID", .str "STATUS", .str "IP", .str "NAME", .str "OS", .str "LOCATION",
              .str "VCPU", .str "RAM", .str "DISK", .str "BANDWIDTH", .str "COST"]
              [12, 16, 24, 32, 32, 32, 8, 8, 24, 12, 8] ::
            data.map (fun r => Event.row r [12, 16, 24, 32, 32, 32, 8, 8, 24, 12, 8]) ++
              [Event.flush]) :=
  have h := nonempty_list_prints_header_and_one_row_per_record
    (okClient [sampleOS 127, sampleOS 139] [sampleBandwidth "2014-06-10"]
      [sampleServer "1" "web", sampleServer "2" "db"] (sampleServer "1" "web"))
  ⟨h.1 "1" [sampleOS 127, sampleOS 139] (by decide) rfl,
    h.2.1 "1" [sampleBandwidth "2014-06-10"] (by decide) rfl,
    h.2.2 [sampleServer "1" "web", sampleServer "2" "db"] (by decide) rfl⟩

/-- C10: for a non-empty sequence of records, the trace of each list-style
handler is the call, the header row, one data row per record and the flush
(length `N + 3`), and for every `i` the `i`-th data row (position `i + 2`) holds
the fields of the `i`-th record in header order. -/
theorem data_rows_follow_collaborator_order (c : Client) :
    (∀ id (os : List OS), os ≠ [] → c.ListOSforServer id = (os, none) →
      (serversListOS c id).trace.length = os.length + 3 ∧
      ∀ (i : Nat) (o : OS), os[i]? = some o →
        (serversListOS c id).trace[i + 2]? =
          some (Event.row [o.ID, o.Name, o.Arch, o.Family, o.Windows, o.Surcharge]
            [8, 32, 8, 16, 8, 12])) ∧
    (∀ id (bandwidth : List Sample), bandwidth ≠ [] →
      c.BandwidthOfServer id = (bandwidth, none) →
      (serversBandwidth c id).trace.length = bandwidth.length + 3 ∧
      ∀ (i : Nat) (b : Sample), bandwidth[i]? = some b →
        (serversBandwidth c id).trace[i + 2]? =
          some (Event.row
            [.str (b.index "date"), .str (b.index "incoming"), .str (b.index "outgoing")]
            [24, 24, 24])) ∧
    (∀ (servers : List Server), servers ≠ [] → c.GetServers = (servers, none) →
      (serversList c).trace.length = servers.length + 3 ∧
      ∀ (i : Nat) (server : Server), servers[i]? = some server →
        (serversList c).trace[i + 2]? =
          some (Event.row
            [.str server.ID, server.Status, server.MainIP, server.Name, server.OS,
              server.Location, server.VCpus, server.RAM, server.Disk,
              server.AllowedBandwidth, server.Cost]
            [12, 16, 24, 32, 32, 32, 8, 8, 24, 12, 8])) := by
  refine ⟨?_, ?_, ?_⟩
  · intro id os hne h
    rw [serversListOS_eq, h]
    cases os with
    | nil => exact absurd rfl hne
    | cons o os =>
      refine ⟨by simp, ?_⟩
      intro i x hi
      simp only []
      rw [getElem?_framed _ _ _ _ _ i x hi]
  · intro id bandwidth hne h
    rw [serversBandwidth_eq, h]
    cases bandwidth with
    | nil => exact absurd rfl hne
    | cons b bs =>
      refine ⟨by simp, ?_⟩
      intro i x hi
      simp only []
      rw [getElem?_framed _ _ _ _ _ i x hi]
  · intro servers hne h
    rw [serversList_eq, h]
    cases servers with
    | nil => exact absurd rfl hne
    | cons s ss =>
      refine ⟨by simp, ?_⟩
      intro i x hi
      simp only []
      rw [getElem?_framed _ _ _ _ _ i x hi]

/-- C10, at a client listing two operating systems, two bandwidth samples (the
second without the keys "incoming" and "outgoing") and two servers: the second
data row is the one of the second record. -/
theorem data_rows_follow_collaborator_order_witness :
    ((serversListOS (okClient [sampleOS 127, sampleOS 139]
      [sampleBandwidth "2014-06-10", [("date", "2014-06-11")]]
      [sampleServer "1" "web", sampleServer "2" "db"] (sampleServer "1" "web")) "1").trace.length = 5 ∧
      (serversListOS (okClient [sampleOS 127, sampleOS 139]
      [sampleBandwidth "2014-06-10", [("date", "2014-06-11")]]
      [sampleServer "1" "web", sampleServer "2" "db"] (sampleServer "1" "web")) "1").trace[3]? =
        some (Event.row
          [.int 139, .str "Debian", .str "x64", .str "debian", .bool false, .int 0]
          [8, 32, 8, 16, 8, 12])) ∧
    ((serversBandwidth (okClient [sampleOS 127, sampleOS 139]
      [sampleBandwidth "2014-06-10", [("date", "2014-06-11")]]
      [sampleServer "1" "web", sampleServer "2" "db"] (sampleServer "1" "web")) "1").trace.length = 5 ∧
      (serversBandwidth (okClient [sampleOS 127, sampleOS 139]
      [sampleBandwidth "2014-06-10", [("date", "2014-06-11")]]
      [sampleServer "1" "web", sampleServer "2" "db"] (sampleServer "1" "web")) "1").trace[3]? =
        some (Event.row [.str "2014-06-11", .str "", .str ""] [24, 24, 24])) ∧
    ((serversList (okClient [sampleOS 127, sampleOS 139]
      [sampleBandwidth "2014-06-10", [("date", "2014-06-11")]]
      [sampleServer "1" "web", sampleServer "2" "db"] (sampleServer "1" "web"))).trace.length = 5 ∧
      (serversList (okClient [sampleOS 127, sampleOS 139]
      [sampleBandwidth "2014-06-10", [("date", "2014-06-11")]]
      [sampleServer "1" "web", sampleServer "2" "db"] (sampleServer "1" "web"))).trace[3]? =
        some (Event.row
          [.str "2", .str "active", .str "10.0.0.1", .str "db", .str "Debian",
            .str "Frankfurt", .int 1, .str "768 MB", .str "Virtual 15 GB", .int 1000,
            .str "5.00"]
          [12, 16, 24, 32, 32, 32, 8, 8, 24, 12, 8])) :=
  have h := data_rows_follow_collaborator_order (okClient [sampleOS 127, sampleOS 139]
      [sampleBandwidth "2014-06-10", [("date", "2014-06-11")]]
      [sampleServer "1" "web", sampleServer "2" "db"] (sampleServer "1" "web"))
  have h1 := h.1 "1" [sampleOS 127, sampleOS 139] (by simp) rfl
  have h2 := h.2.1 "1" [sampleBandwidth "2014-06-10", [("date", "2014-06-11")]] (by simp) rfl
  have h3 := h.2.2 [sampleServer "1" "web", sampleServer "2" "db"] (by simp) rfl
  ⟨⟨h1.1, h1.2 1 (sampleOS 139) rfl⟩,
    ⟨h2.1, h2.2 1 [("date", "2014-06-11")] rfl⟩,
    ⟨h3.1, h3.2 1 (sampleServer "2" "db") rfl⟩⟩

/-! ## Show -/

/-- C4: when `GetServer` succeeds with a record whose id is empty, Show prints the
not-found message for the requested identifier, followed by a newline, and
nothing else, whatever the full flag. -/
theorem show_not_found_prints_message_only (c : Client) (id : String) (full : Bool)
    (server : Server) (hget : c.GetServer id = (server, none)) (hid : server.ID = "") :
    serversShow c id full =
      ⟨[Event.call (Request.GetServer id),
        Event.print ("No virtual machine with SUBID " ++ id ++ " found!\n")], some ()⟩ := by
  rw [serversShow_eq, hget]
  simp only [hid, if_true]

/-- C4, at a client that finds the empty record for identifier "576965". -/
theorem show_not_found_prints_message_only_witness :
    serversShow (okClient [] [] [] (sampleServer "" "")) "576965" true =
      ⟨[Event.call (Request.GetServer "576965"),
        Event.print "No virtual machine with SUBID 576965 found!\n"], some ()⟩ :=
  show_not_found_prints_message_only (okClient [] [] [] (sampleServer "" "")) "576965" true
    (sampleServer "" "") rfl rfl

/-- C5, refuted as stated: for server "1" with a name of 70 characters, the two
runs of Show already differ at the Name row, which carries the width 64 without
the full flag and 1024 with it. -/
theorem show_full_flag_changes_name_row_width :
    (serversShow (okClient [] [] [] (sampleServer "1" longName)) "1" false).trace[2]? =
        some (Event.row [.str "Name:", .str longName] [24, 64]) ∧
      (serversShow (okClient [] [] [] (sampleServer "1" longName)) "1" true).trace[2]? =
        some (Event.row [.str "Name:", .str longName] [24, 1024]) ∧
      (serversShow (okClient [] [] [] (sampleServer "1" longName)) "1" false).trace[2]? ≠
        (serversShow (okClient [] [] [] (sampleServer "1" longName)) "1" true).trace[2]? ∧
      longName.length = 70 := by
  refine ⟨rfl, rfl, ?_, by decide⟩
  intro h
  have h2 : (some (Event.row [.str "Name:", .str longName] [24, 64]) : Option Event) =
      some (Event.row [.str "Name:", .str longName] [24, 1024]) := h
  simp at h2

/-- C5, amended: for a record with a non-empty id, Show hands the formatter the
same 26 label/value rows in the same order, the last one the KVM URL row, and
then flushes; the full flag changes only the second width hint, which is passed
with every row: 64 when the flag is unset, 1024 when it is set. -/
theorem show_full_flag_selects_value_width (c : Client) (id : String) (server : Server)
    (hget : c.GetServer id = (server, none)) (hid : server.ID ≠ "") (full : Bool) :
    (serversShow c id full).trace =
      Event.call (Request.GetServer id) ::
        ([ [.str "Id (SUBID):", .str server.ID],
              [.str "Name:", server.Name],
              [.str "Operating system:", server.OS],
              [.str "Status:", server.Status],
              [.str "Power status:", server.PowerStatus],
              [.str "Location:", server.Location],
              [.str "Region (DCID):", server.RegionID],
              [.str "VCPU count:", server.VCpus],
              [.str "RAM:", server.RAM],
              [.str "Disk:", server.Disk],
              [.str "Allowed bandwidth:", server.AllowedBandwidth],
              [.str "Current bandwidth:", server.CurrentBandwidth],
              [.str "Cost per month:", server.Cost],
              [.str "Pending charges:", server.PendingCharges],
              [.str "Plan (VPSPLANID):", server.PlanID],
              [.str "IP:", server.MainIP],
              [.str "Netmask:", server.NetmaskV4],
              [.str "Gateway:", server.GatewayV4],
              [.str "Internal IP:", server.InternalIP],
              [.str "IPv6 IP:", server.MainIPV6],
              [.str "IPv6 Network:", server.NetworkV6],
              [.str "IPv6 Network Size:", server.NetworkSizeV6],
              [.str "Created date:", server.Created],
              [.str "Default password:", server.DefaultPassword],
              [.str "Auto backups:", server.AutoBackups],
              [.str "KVM URL:", server.KVMUrl] ] : List Columns).map
          (fun r => Event.row r [24, if full then 1024 else 64]) ++ [Event.flush] := by
  rw [serversShow_eq, hget]
  simp only [hid, if_false]

/-- C5 amended, at server "1": the KVM URL row (position 26) carries the width 64
without the full flag and 1024 with it. -/
theorem show_full_flag_selects_value_width_witness :
    (serversShow (okClient [] [] [] (sampleServer "1" "web")) "1" false).trace[26]? =
        some (Event.row [.str "KVM URL:", .str "https://my.vultr.com/kvm"] [24, 64]) ∧
      (serversShow (okClient [] [] [] (sampleServer "1" "web")) "1" true).trace[26]? =
        some (Event.row [.str "KVM URL:", .str "https://my.vultr.com/kvm"] [24, 1024]) :=
  ⟨by
      rw [show_full_flag_selects_value_width (okClient [] [] [] (sampleServer "1" "web")) "1"
        (sampleServer "1" "web") rfl (by decide) false]
      rfl,
    by
      rw [show_full_flag_selects_value_width (okClient [] [] [] (sampleServer "1" "web")) "1"
        (sampleServer "1" "web") rfl (by decide) true]
      rfl⟩

/-! ## Create -/

/-- C6, refuted as stated: asked for the name "web", region 1 and plan 2, with a
client whose `CreateServer` answers with the record named "other" in region 9
on plan 29, Create prints the record's name, region and plan, not the
caller's. -/
theorem create_row_shows_returned_record :
    (serversCreate relabellingClient
        { name := "web", regionID := 1, planID := 2, osID := 3 }).trace[3]? =
        some (Event.row [.str "7", .str "other", .int 9, .int 29, .int 3] [12, 32, 8, 12, 8]) ∧
      (serversCreate relabellingClient
        { name := "web", regionID := 1, planID := 2, osID := 3 }).trace[3]? ≠
        some (Event.row [.str "7", .str "web", .int 1, .int 2, .int 3] [12, 32, 8, 12, 8]) := by
  refine ⟨rfl, ?_⟩
  intro h
  have h2 : (some (Event.row [.str "7", .str "other", .int 9, .int 29, .int 3]
      [12, 32, 8, 12, 8]) : Option Event) =
      some (Event.row [.str "7", .str "web", .int 1, .int 2, .int 3] [12, 32, 8, 12, 8]) := h
  simp at h2

/-- C6, amended: when `CreateServer` succeeds, Create prints "Virtual machine
created" and a blank line, then a table of the header row and one data row and
flushes; the data row holds the id, name, region id and plan id of the record
the client returned, followed by the OS id supplied by the caller.  When the
returned record carries the caller's name, region id and plan id, the row
echoes them. -/
theorem create_prints_returned_record_and_caller_os (c : Client) (f : CreateFlags)
    (server : Server)
    (hcreate : c.CreateServer f.name f.regionID f.planID f.osID
        ⟨f.ipxe, f.iso, f.script, f.snapshot, f.sshkey, f.ipv6, f.privateNetworking,
            f.autoBackups⟩ = (server, none)) :
    serversCreate c f =
        ⟨[Event.call (Request.CreateServer f.name f.regionID f.planID f.osID
            ⟨f.ipxe, f.iso, f.script, f.snapshot, f.sshkey, f.ipv6, f.privateNetworking,
            f.autoBackups⟩),
          Event.print "Virtual machine created\n\n",
          Event.row [.str "SUBID", .str "NAME", .str "DCID", .str "VPSPLANID", .str "OSID"]
            [12, 32, 8, 12, 8],
          Event.row [.str server.ID, server.Name, server.RegionID, server.PlanID, .int f.osID]
            [12, 32, 8, 12, 8],
          Event.flush], some ()⟩ ∧
      (server.Name = .str f.name → server.RegionID = .int f.regionID →
        server.PlanID = .int f.planID →
        (serversCreate c f).trace[3]? =
          some (Event.row
            [.str server.ID, .str f.name, .int f.regionID, .int f.planID, .int f.osID]
            [12, 32, 8, 12, 8])) := by
  rw [serversCreate_eq, hcreate]
  refine ⟨rfl, ?_⟩
  intro hn hr hp
  rw [← hn, ← hr, ← hp]
  rfl

/-- C6 amended, at a client that creates server "7" as asked. -/
theorem create_prints_returned_record_and_caller_os_witness :
    serversCreate (okClient [] [] [] (sampleServer "1" "web"))
        { name := "web", regionID := 1, planID := 2, osID := 3 } =
        ⟨[Event.call (Request.CreateServer "web" 1 2 3 ⟨"", 0, 0, "", "", false, false, false⟩),
          Event.print "Virtual machine created\n\n",
          Event.row [.str "SUBID", .str "NAME", .str "DCID", .str "VPSPLANID", .str "OSID"]
            [12, 32, 8, 12, 8],
          Event.row [.str "7", .str "web", .int 1, .int 2, .int 3] [12, 32, 8, 12, 8],
          Event.flush], some ()⟩ ∧
      (serversCreate (okClient [] [] [] (sampleServer "1" "web"))
        { name := "web", regionID := 1, planID := 2, osID := 3 }).trace[3]? =
        some (Event.row [.str "7", .str "web", .int 1, .int 2, .int 3] [12, 32, 8, 12, 8]) :=
  have h := create_prints_returned_record_and_caller_os (okClient [] [] [] (sampleServer "1" "web"))
    { name := "web", regionID := 1, planID := 2, osID := 3 }
    { sampleServer "7" "web" with RegionID := .int 1, PlanID := .int 2 } rfl
  ⟨h.1, h.2 rfl rfl rfl⟩

/-- C7: whatever the flags and whatever the client answers, Create calls the
client once, `CreateServer` with the caller's name, region id, plan id and OS id
and with the options bundle holding the eight flag values; with the optional
flags omitted the bundle holds the zero values. -/
theorem create_calls_client_once_with_flag_values (c : Client) (f : CreateFlags)
    (name : String) (regionID planID osID : Int) :
    calls (serversCreate c f).trace =
        [Request.CreateServer f.name f.regionID f.planID f.osID
          { IPXEChainURL := f.ipxe, ISO := f.iso, Script := f.script, Snapshot := f.snapshot,
            SSHKey := f.sshkey, IPV6 := f.ipv6, PrivateNetworking := f.privateNetworking,
            AutoBackups := f.autoBackups }] ∧
      calls (serversCreate c
          { name := name, regionID := regionID, planID := planID, osID := osID }).trace =
        [Request.CreateServer name regionID planID osID
          { IPXEChainURL := "", ISO := 0, Script := 0, Snapshot := "", SSHKey := "",
            IPV6 := false, PrivateNetworking := false, AutoBackups := false }] := by
  constructor
  · rw [serversCreate_eq]
    split <;> rfl
  · rw [serversCreate_eq]
    split <;> rfl

/-! ## Confirmation sentences -/

/-- C8, refuted as stated: the line Rename prints is not the same for every new
name, and the line Change-OS prints is not the same for every OS id. -/
theorem confirmation_line_depends_on_supplied_value :
    output (serversRename (okClient [] [] [] (sampleServer "1" "web")) "1" "web").trace =
        [Event.print "Virtual machine renamed to: web\n"] ∧
      output (serversRename (okClient [] [] [] (sampleServer "1" "web")) "1" "db").trace =
        [Event.print "Virtual machine renamed to: db\n"] ∧
      output (serversRename (okClient [] [] [] (sampleServer "1" "web")) "1" "web").trace ≠
        output (serversRename (okClient [] [] [] (sampleServer "1" "web")) "1" "db").trace ∧
      output (serversChangeOS (okClient [] [] [] (sampleServer "1" "web")) "1" 127).trace =
        [Event.print "Virtual machine operating system changed to: 127\n"] ∧
      output (serversChangeOS (okClient [] [] [] (sampleServer "1" "web")) "1" 139).trace =
        [Event.print "Virtual machine operating system changed to: 139\n"] := by
  refine ⟨rfl, rfl, ?_, by decide, by decide⟩
  intro h
  have h2 : [Event.print "Virtual machine renamed to: web\n"] =
      [Event.print "Virtual machine renamed to: db\n"] := h
  simp at h2

/-- C8, amended: when the client call succeeds, Start, Halt, Reboot, Reinstall and
Delete print one fixed sentence, the same for every target identifier; Rename
prints "Virtual machine renamed to: " followed by the new name, and Change-OS
prints "Virtual machine operating system changed to: " followed by the OS id,
each ended by a newline and independent of the target identifier.  No handler
of these seven emits a formatter row or a flush. -/
theorem success_prints_confirmation_only (c : Client) :
    (∀ id name, c.RenameServer id name = none →
      serversRename c id name =
        ⟨[Event.call (Request.RenameServer id name),
          Event.print ("Virtual machine renamed to: " ++ name ++ "\n")], some ()⟩) ∧
    (∀ id osID, c.ChangeOSofServer id osID = none →
      serversChangeOS c id osID =
        ⟨[Event.call (Request.ChangeOSofServer id osID),
          Event.print ("Virtual machine operating system changed to: " ++ fmtInt osID ++ "\n")],
          some ()⟩) ∧
    (∀ id, c.StartServer id = none →
      serversStart c id =
        ⟨[Event.call (Request.StartServer id), Event.print "Virtual machine (re)started\n"], some ()⟩) ∧
    (∀ id, c.HaltServer id = none →
      serversHalt c id =
        ⟨[Event.call (Request.HaltServer id), Event.print "Virtual machine halted\n"], some ()⟩) ∧
    (∀ id, c.RebootServer id = none →
      serversReboot c id =
        ⟨[Event.call (Request.RebootServer id), Event.print "Virtual machine rebooted\n"], some ()⟩) ∧
    (∀ id, c.ReinstallServer id = none →
      serversReinstall c id =
        ⟨[Event.call (Request.ReinstallServer id), Event.print "Virtual machine reinstalled\n"], some ()⟩) ∧
    (∀ id, c.DeleteServer id = none →
      serversDelete c id =
        ⟨[Event.call (Request.DeleteServer id), Event.print "Virtual machine deleted\n"], some ()⟩) := by
  refine ⟨?_, ?_, ?_, ?_, ?_, ?_, ?_⟩
  · intro id name h
    rw [serversRename_eq, h]
  · intro id osID h
    rw [serversChangeOS_eq, h]
  · intro id h
    rw [serversStart_eq, h]
  · intro id h
    rw [serversHalt_eq, h]
  · intro id h
    rw [serversReboot_eq, h]
  · intro id h
    rw [serversReinstall_eq, h]
  · intro id h
    rw [serversDelete_eq, h]

/-- C8 amended, at a client every call of which succeeds. -/
theorem success_prints_confirmation_only_witness :
    serversRename (okClient [] [] [] (sampleServer "1" "web")) "1" "db" =
        ⟨[Event.call (Request.RenameServer "1" "db"),
          Event.print ("Virtual machine renamed to: " ++ "db" ++ "\n")], some ()⟩ ∧
      serversChangeOS (okClient [] [] [] (sampleServer "1" "web")) "1" 127 =
        ⟨[Event.call (Request.ChangeOSofServer "1" 127),
          Event.print ("Virtual machine operating system changed to: " ++ fmtInt 127 ++ "\n")],
          some ()⟩ ∧
      serversStart (okClient [] [] [] (sampleServer "1" "web")) "1" =
        ⟨[Event.call (Request.StartServer "1"), Event.print "Virtual machine (re)started\n"],
          some ()⟩ ∧
      serversHalt (okClient [] [] [] (sampleServer "1" "web")) "2" =
        ⟨[Event.call (Request.HaltServer "2"), Event.print "Virtual machine halted\n"],
          some ()⟩ ∧
      serversReboot (okClient [] [] [] (sampleServer "1" "web")) "3" =
        ⟨[Event.call (Request.RebootServer "3"), Event.print "Virtual machine rebooted\n"],
          some ()⟩ ∧
      serversReinstall (okClient [] [] [] (sampleServer "1" "web")) "4" =
        ⟨[Event.call (Request.ReinstallServer "4"),
          Event.print "Virtual machine reinstalled\n"], some ()⟩ ∧
      serversDelete (okClient [] [] [] (sampleServer "1" "web")) "5" =
        ⟨[Event.call (Request.DeleteServer "5"), Event.print "Virtual machine deleted\n"],
          some ()⟩ :=
  have h := success_prints_confirmation_only (okClient [] [] [] (sampleServer "1" "web"))
  ⟨h.1 "1" "db" rfl, h.2.1 "1" 127 rfl, h.2.2.1 "1" rfl, h.2.2.2.1 "2" rfl,
    h.2.2.2.2.1 "3" rfl, h.2.2.2.2.2.1 "4" rfl, h.2.2.2.2.2.2 "5" rfl⟩

/-! ## Formatter precondition -/

/-- C9: in each handler that prints a table (create, list-OS, bandwidth, list,
show), for every client and every flag value, every row handed to the
formatter has exactly as many values as width hints. -/
theorem rows_match_width_hints (c : Client) (f : CreateFlags) (id : String) (full : Bool) :
    (serversCreate c f).trace.all Event.widthsMatch = true ∧
      (serversListOS c id).trace.all Event.widthsMatch = true ∧
      (serversBandwidth c id).trace.all Event.widthsMatch = true ∧
      (serversList c).trace.all Event.widthsMatch = true ∧
      (serversShow c id full).trace.all Event.widthsMatch = true := by
  refine ⟨?_, ?_, ?_, ?_, ?_⟩
  · rw [serversCreate_eq]
    split <;> rfl
  · rw [serversListOS_eq]
    split
    · rfl
    · split
      · rfl
      · simp [Event.widthsMatch]
  · rw [serversBandwidth_eq]
    split
    · rfl
    · split
      · rfl
      · simp [Event.widthsMatch]
  · rw [serversList_eq]
    split
    · rfl
    · split
      · rfl
      · simp [Event.widthsMatch]
  · rw [serversShow_eq]
    split
    · rfl
    · split
      · rfl
      · cases full <;> rfl

end Vultr
